import Mathlib

/-!
Verification of the Twitter media-upload node
(`src/nodes/Twitter/TwitterMediaUpload.node.ts`).

JavaScript strings are embedded as `List Char` (`JStr`), so that every
string operation the source uses (`split(',')`, `trim()`, `startsWith`,
`join(',')`, `String(number)`, truthiness) is a structural, kernel-
computable Lean function.  The host workflow engine's parameter and
credential retrieval is embedded as `Option`-valued inputs, matching the
source's try/catch access pattern.  The network and the JSON parser are
parameters of the embedding (`net`, `parse`): no claim depends on their
behaviour beyond what the source inspects (status code, parse success).
-/

namespace TwitterUpload

/-- Embedding of a JavaScript string as a list of characters. -/
abbrev JStr := List Char

/-- JavaScript string truthiness: a string is truthy iff it is non-empty. -/
def jsTruthy (s : JStr) : Bool := !s.isEmpty

/-- Truthiness of an optional string (undefined and null are falsy). -/
def optTruthy : Option JStr → Bool
  | none => false
  | some s => jsTruthy s

/-- Whitespace test used by the embedding of JavaScript `trim()`
(space, tab, newline, carriage return). -/
def isWsChar (c : Char) : Bool :=
  c = ' ' || c = '\t' || c = '\n' || c = '\r'

/-- Embedding of JavaScript `String.prototype.trim`. -/
def jsTrim (l : JStr) : JStr :=
  ((l.dropWhile isWsChar).reverse.dropWhile isWsChar).reverse

/-- Embedding of JavaScript `split(',')`: splitting an empty string
yields one empty piece, and separators at the ends yield empty pieces. -/
def splitOnComma : JStr → List JStr
  | [] => [[]]
  | c :: rest =>
    let r := splitOnComma rest
    if c = ',' then [] :: r
    else
      match r with
      | [] => [[c]]
      | h :: t => (c :: h) :: t

/-- Embedding of JavaScript `Array.prototype.join(',')`. -/
def joinComma : List JStr → JStr
  | [] => []
  | [x] => x
  | x :: y :: xs => x ++ ',' :: joinComma (y :: xs)

/-- Embedding of JavaScript `String.prototype.startsWith`
(`listStartsWith pre s` is `s.startsWith(pre)`). -/
def listStartsWith : JStr → JStr → Bool
  | [], _ => true
  | _ :: _, [] => false
  | a :: as, b :: bs => a = b && listStartsWith as bs

/-- The ten decimal digit characters, least index is digit 0. -/
def digitTable : JStr := ['0', '1', '2', '3', '4', '5', '6', '7', '8', '9']

/-- Decimal digit character of `d % 10`. -/
def digitChar (d : Nat) : Char := digitTable.getD (d % 10) '0'

/-- Digit test on characters (the decimal digits `'0'`–`'9'`). -/
def isDigitCh (c : Char) : Bool := 48 ≤ c.toNat && c.toNat ≤ 57

/-- Fuel-driven decimal digit expansion; `fuel ≥ n` suffices, and recursion
is structural on the fuel so the kernel can evaluate it. -/
def decDigitsAux : Nat → Nat → JStr
  | 0, _ => []
  | _ + 1, 0 => []
  | fuel + 1, n + 1 => decDigitsAux fuel ((n + 1) / 10) ++ [digitChar ((n + 1) % 10)]

/-- Embedding of JavaScript `String(n)` for the non-negative integers the
source converts (`binaryData.length`). -/
def jsNatToStr (n : Nat) : JStr :=
  match n with
  | 0 => [digitChar 0]
  | m + 1 => decDigitsAux (m + 1) (m + 1)

/-! String literals of the source, as `JStr` constants. -/

/-- Literal `image/`. -/
def sImageSlash : String := "image/"

/-- Literal `image/` as a character list. -/
def jImageSlash : JStr := sImageSlash.data

/-- Literal default file name `image.jpg`. -/
def sImageJpg : String := "image.jpg"

/-- Literal default file name as a character list. -/
def jImageJpg : JStr := sImageJpg.data

/-- Literal form-field name `command`. -/
def sCommand : String := "command"

/-- Literal `command` as a character list. -/
def jCommand : JStr := sCommand.data

/-- Literal form-field value `INIT`. -/
def sINIT : String := "INIT"

/-- Literal `INIT` as a character list. -/
def jINIT : JStr := sINIT.data

/-- Literal form-field name `totalBytes`. -/
def sTotalBytes : String := "totalBytes"

/-- Literal `totalBytes` as a character list. -/
def jTotalBytes : JStr := sTotalBytes.data

/-- Literal form-field name `mediaType`. -/
def sMediaTypeKey : String := "mediaType"

/-- Literal `mediaType` as a character list. -/
def jMediaTypeKey : JStr := sMediaTypeKey.data

/-- Literal form-field name `media_category`. -/
def sMediaCategoryKey : String := "media_category"

/-- Literal `media_category` as a character list. -/
def jMediaCategoryKey : JStr := sMediaCategoryKey.data

/-- Literal form-field name `media`. -/
def sMediaKey : String := "media"

/-- Literal `media` as a character list. -/
def jMediaKey : JStr := sMediaKey.data

/-- Literal form-field name `additional_owners`. -/
def sAdditionalOwnersKey : String := "additional_owners"

/-- Literal `additional_owners` as a character list. -/
def jAdditionalOwnersKey : JStr := sAdditionalOwnersKey.data

/-- Literal request URL. -/
def sUploadUrl : String := "https://upload.twitter.com/1.1/media/upload.json"

/-- Literal request URL as a character list. -/
def jUploadUrl : JStr := sUploadUrl.data

/-- Literal HTTP method `POST`. -/
def sPOST : String := "POST"

/-- Literal `POST` as a character list. -/
def jPOST : JStr := sPOST.data

/-- Literal rendering of JavaScript `undefined` in a template string. -/
def sUndefined : String := "undefined"

/-- Literal `undefined` as a character list. -/
def jUndefined : JStr := sUndefined.data

/-- Message thrown when no credentials object is provided. -/
def sNoCredsMsg : String := "No credentials provided"

/-- Message for a missing credentials object, as a character list. -/
def jNoCredsMsg : JStr := sNoCredsMsg.data

/-- Message stem thrown for a missing credential field. -/
def sMissingCredPre : String := "Missing required Twitter OAuth credential: "

/-- Missing-credential message stem as a character list. -/
def jMissingCredPre : JStr := sMissingCredPre.data

/-- Credential field label `Consumer Key`. -/
def sLabelConsumerKey : String := "Consumer Key"

/-- Credential field label `Consumer Key` as a character list. -/
def jLabelConsumerKey : JStr := sLabelConsumerKey.data

/-- Credential field label `Access Token` (the source reuses this label
for the consumer secret as well). -/
def sLabelAccessToken : String := "Access Token"

/-- Credential field label `Access Token` as a character list. -/
def jLabelAccessToken : JStr := sLabelAccessToken.data

/-- Credential field label `Access Token Secret`. -/
def sLabelAccessSecret : String := "Access Token Secret"

/-- Credential field label `Access Token Secret` as a character list. -/
def jLabelAccessSecret : JStr := sLabelAccessSecret.data

/-- Message stem of the missing-binary error. -/
def sNoBinaryPre : String := "No binary data found in property \""

/-- Missing-binary message stem as a character list. -/
def jNoBinaryPre : JStr := sNoBinaryPre.data

/-- Message tail of the missing-binary error. -/
def sNoBinarySuf : String := "\" and no image alternatives found"

/-- Missing-binary message tail as a character list. -/
def jNoBinarySuf : JStr := sNoBinarySuf.data

/-- Message stem of the invalid-media-type error. -/
def sInvalidTypePre : String := "Invalid media type: "

/-- Invalid-media-type message stem as a character list. -/
def jInvalidTypePre : JStr := sInvalidTypePre.data

/-- Message tail of the invalid-media-type error. -/
def sInvalidTypeSuf : String := ". Only images are supported."

/-- Invalid-media-type message tail as a character list. -/
def jInvalidTypeSuf : JStr := sInvalidTypeSuf.data

/-- Message of the non-numeric `totalBytes` error. -/
def sTotalBytesMsg : String := "totalBytes must be a number"

/-- Non-numeric `totalBytes` message as a character list. -/
def jTotalBytesMsg : JStr := sTotalBytesMsg.data

/-- Message of the too-many-additional-owners error. -/
def sMaxOwnersMsg : String := "Maximum of 100 additional owners allowed"

/-- Too-many-owners message as a character list. -/
def jMaxOwnersMsg : JStr := sMaxOwnersMsg.data

/-- Message modelling the host engine's own error when the
`additionalOwners` parameter is not configured (`getNodeParameter`
throws; the source swallows it, so the text is never observed). -/
def sOwnersParamAbsentMsg : String := "additionalOwners parameter not available"

/-- Host missing-parameter message as a character list. -/
def jOwnersParamAbsentMsg : JStr := sOwnersParamAbsentMsg.data

/-! Data model. -/

/-- One named binary attachment of an input item: declared mime type,
declared file name, and the payload bytes the host buffer yields. -/
structure Attachment where
  mimeType : Option JStr
  fileName : Option JStr
  payload : List Nat
deriving DecidableEq

/-- One input item: its insertion-ordered mapping of named binary
attachments (`item.binary` in the source; `none` models an item with no
`binary` object at all, which the source reads as an empty mapping). -/
structure Item where
  binary : List (JStr × Attachment)
deriving DecidableEq

/-- The per-item node parameters as the host engine resolves them.
`none` models `getNodeParameter` throwing (parameter not configured),
which the source converts to `null` (for `mediaData`, `mediaCategory`)
or swallows (for `additionalOwners`). -/
structure Params where
  binaryPropertyName : JStr
  mediaData : Option JStr
  mediaCategory : Option JStr
  additionalOwners : Option JStr
deriving DecidableEq

/-- The credential record; each field is absent (`none`) or a string.
`credentials[field]?.toString()` is falsy exactly when the field is
absent or the empty string. -/
structure Credentials where
  consumerKey : Option JStr
  consumerSecret : Option JStr
  accessToken : Option JStr
  accessSecret : Option JStr
deriving DecidableEq

/-- A response body after the parse step: a parsed JSON value (of the
abstract parse-result type `J`) or the raw text when parsing failed. -/
inductive BodyVal (J : Type) where
  | parsed (j : J)
  | raw (s : JStr)
deriving DecidableEq

/-- Errors of the embedded node: `operation` embeds `NodeOperationError`
(message), `api` embeds `NodeApiError` (response body and HTTP status),
`transport` embeds a rejected network promise. -/
inductive NodeError (J : Type) where
  | operation (msg : JStr)
  | api (body : BodyVal J) (httpCode : Nat)
  | transport (msg : JStr)
deriving DecidableEq

/-- One entry of the multipart form, in append order: a string field or
the binary file field. -/
inductive FormEntry where
  | field (name value : JStr)
  | file (name : JStr) (payload : List Nat) (fileName : JStr)
deriving DecidableEq

/-- The ready-to-send request descriptor the builder produces. -/
structure Request where
  url : JStr
  method : JStr
  authHeader : JStr
  entries : List FormEntry
deriving DecidableEq

/-- Input of the signature helper call (`oauth.generateAuthHeader`). -/
structure SignRequest where
  url : JStr
  method : JStr
  params : List (JStr × JStr)
deriving DecidableEq

/-- Outcome of the single network round trip: a rejected promise or a
completed response with status code and raw body text. -/
inductive NetOutcome where
  | fail (msg : JStr)
  | response (status : Nat) (body : JStr)
deriving DecidableEq

/-- One entry of the batch output: the source pushes
`{success: true, ...body}` for a completed upload and
`{success: false, error, details}` for a tolerated per-item failure. -/
inductive ItemResult (J : Type) where
  | success (body : BodyVal J)
  | failure (e : NodeError J)
deriving DecidableEq

/-! Credential validation (source lines 81–102). -/

/-- Presence test embedded from `!credentials[field]?.toString()`:
an absent field or an empty string fails the check. -/
def credFieldPresent : Option JStr → Bool
  | none => false
  | some s => jsTruthy s

/-- The `requiredFields` table of the source, in order, with the
source's (partly copy-pasted) labels. -/
def requiredFields (c : Credentials) : List (Option JStr × JStr) :=
  [(c.consumerKey, jLabelConsumerKey),
   (c.consumerSecret, jLabelAccessToken),
   (c.accessToken, jLabelAccessToken),
   (c.accessSecret, jLabelAccessSecret)]

/-- Label of the first missing required credential field, if any:
the validation loop of the source throws on the first failure. -/
def firstMissingCredential (c : Credentials) : Option JStr :=
  (requiredFields c).findSome?
    (fun fl => if credFieldPresent fl.1 then none else some fl.2)

/-! Binary resolution (source lines 147–173). -/

/-- First attachment stored under `name` (JavaScript object property
access on the duck-typed `binary` mapping). -/
def lookupBinary (binary : List (JStr × Attachment)) (name : JStr) : Option Attachment :=
  (binary.find? (fun kv => kv.1 = name)).map (fun kv => kv.2)

/-- First attachment whose declared mime type starts with `image/`
(`binaryKeys.find(key => binary[key].mimeType?.startsWith('image/'))`). -/
def findImageAttachment (binary : List (JStr × Attachment)) : Option (JStr × Attachment) :=
  binary.find? (fun kv =>
    match kv.2.mimeType with
    | some m => listStartsWith jImageSlash m
    | none => false)

/-- Message of the missing-binary error for property `name`. -/
def noBinaryMsg (name : JStr) : JStr := jNoBinaryPre ++ name ++ jNoBinarySuf

/-- Payload resolution embedded from source lines 150–166: use the named
attachment when present, otherwise the first attachment whose mime type
starts with `image/`, otherwise fail. -/
def resolveBinary {J : Type} (binary : List (JStr × Attachment)) (name : JStr) :
    Except (NodeError J) (JStr × Attachment) :=
  match lookupBinary binary name with
  | some a => .ok (name, a)
  | none =>
    match findImageAttachment binary with
    | some kv => .ok kv
    | none => .error (.operation (noBinaryMsg name))

/-- File name resolution from `fileName || 'image.jpg'`. -/
def resolveFileName : Option JStr → JStr
  | some f => if jsTruthy f then f else jImageJpg
  | none => jImageJpg

/-! Media type validation (source lines 183–188 and 228–233). -/

/-- Negation of the guard `!mediaType || !mediaType.startsWith('image/')`
used (twice) by the source: the media type is acceptable iff it is a
truthy string starting with `image/`. -/
def mimeOk : Option JStr → Bool
  | some m => jsTruthy m && listStartsWith jImageSlash m
  | none => false

/-- Rendering of an optional string inside a template literal
(JavaScript prints `undefined` for an absent value). -/
def jsShowOptStr : Option JStr → JStr
  | some s => s
  | none => jUndefined

/-- Message of the invalid-media-type error. -/
def invalidTypeMsg (mt : Option JStr) : JStr :=
  jInvalidTypePre ++ jsShowOptStr mt ++ jInvalidTypeSuf

/-! Numeric check on `totalBytes` (source lines 222–226). -/

/-- Exponent-part check of the modelled JavaScript numeric literal:
an empty rest is fine, else `e`/`E`, an optional sign, and digits. -/
def jsExpOk : JStr → Bool
  | [] => true
  | c :: rest =>
    (c = 'e' || c = 'E') &&
      (let rest2 :=
        match rest with
        | [] => rest
        | d :: tl => if d = '+' || d = '-' then tl else rest
       !(rest2.takeWhile isDigitCh).isEmpty && (rest2.dropWhile isDigitCh).isEmpty)

/-- Modelled JavaScript decimal-literal recognition for `Number(s)` on a
trimmed, non-empty string: optional sign, digits with an optional
fraction, optional exponent.  (Hex, octal, binary and `Infinity` forms
are not modelled; they never arise from `String(length)`.) -/
def jsParsesAsDecimal (l : JStr) : Bool :=
  let l1 :=
    match l with
    | [] => l
    | c :: rest => if c = '+' || c = '-' then rest else l
  let intPart := l1.takeWhile isDigitCh
  let r1 := l1.dropWhile isDigitCh
  match r1 with
  | '.' :: r =>
    (!intPart.isEmpty || !(r.takeWhile isDigitCh).isEmpty) &&
      jsExpOk (r.dropWhile isDigitCh)
  | _ => !intPart.isEmpty && jsExpOk r1

/-- Embedding of `isNaN(Number(s))`: `Number` trims, maps the empty
string to `0`, and yields `NaN` exactly when the rest is not a numeric
literal. -/
def jsIsNaNOfNumber (s : JStr) : Bool :=
  match jsTrim s with
  | [] => false
  | c :: rest => !jsParsesAsDecimal (c :: rest)

/-! Additional owners (source lines 244–267). -/

/-- The cleaned owner list: split on commas, trim entries, drop the
empty ones (source lines 248–251). -/
def ownersList (s : JStr) : List JStr :=
  ((splitOnComma s).map jsTrim).filter (fun x => !x.isEmpty)

/-- Body of the `try` block around the additional-owners handling:
reads the parameter (the host throws when it is not configured),
validates the cleaned list against the 100-entry cap, and yields the
form-field value to append, if any. -/
def ownersBlockInner (raw : Option JStr) : Except JStr (Option JStr) :=
  match raw with
  | none => .error jOwnersParamAbsentMsg
  | some s =>
    if jsTruthy s then
      let l := ownersList s
      if l.length > 100 then .error jMaxOwnersMsg
      else .ok (some (joinComma l))
    else .ok none

/-- The whole additional-owners block including its `catch`: any error
raised inside — the host's missing-parameter error or the 100-owner
`NodeOperationError` — is logged and swallowed, and the item proceeds
without the `additional_owners` field (source lines 262–267). -/
def ownersField (raw : Option JStr) : Option JStr :=
  match ownersBlockInner raw with
  | .ok o => o
  | .error _ => none

/-! Request building (source lines 190–276). -/

/-- The OAuth parameter record built at source lines 202–211: `command`,
`totalBytes`, `mediaType`, and `media_category` when truthy. -/
def oauthParamsOf (len : Nat) (mt : JStr) (mc : Option JStr) : List (JStr × JStr) :=
  let base := [(jCommand, jINIT), (jTotalBytes, jsNatToStr len), (jMediaTypeKey, mt)]
  match mc with
  | some c => if jsTruthy c then base ++ [(jMediaCategoryKey, c)] else base
  | none => base

/-- The optional `media_category` form field (source lines 237–239). -/
def mediaCategoryEntries (mc : Option JStr) : List FormEntry :=
  match mc with
  | some c => if jsTruthy c then [.field jMediaCategoryKey c] else []
  | none => []

/-- The optional `additional_owners` form field (source lines 244–267). -/
def ownersEntries (raw : Option JStr) : List FormEntry :=
  match ownersField raw with
  | some v => [.field jAdditionalOwnersKey v]
  | none => []

/-- Request construction embedded from source lines 116–276: resolve the
binary payload, validate the media type (the source checks it once
before building the OAuth parameter record and once after generating
the authorization header), validate `totalBytes` numerically, and
assemble the multipart entries in append order.  The signature helper
is the parameter `sign`; the `mediaData` parameter is read by the
source but never used, and accordingly `p.mediaData` is not consulted. -/
def buildRequest {J : Type} (sign : SignRequest → JStr) (p : Params) (it : Item) :
    Except (NodeError J) Request :=
  match resolveBinary it.binary p.binaryPropertyName with
  | .error e => .error e
  | .ok kv =>
    let att := kv.2
    let mt := att.mimeType
    let fn := resolveFileName att.fileName
    if !mimeOk mt then .error (.operation (invalidTypeMsg mt))
    else
      let mtStr := jsShowOptStr mt
      let oauthParams := oauthParamsOf att.payload.length mtStr p.mediaCategory
      let authHeader := sign { url := jUploadUrl, method := jPOST, params := oauthParams }
      let totalBytes := jsNatToStr att.payload.length
      if jsIsNaNOfNumber totalBytes then .error (.operation jTotalBytesMsg)
      else if !mimeOk mt then .error (.operation (invalidTypeMsg mt))
      else
        .ok
          { url := jUploadUrl
            method := jPOST
            authHeader := authHeader
            entries :=
              [FormEntry.field jCommand jINIT,
               FormEntry.field jTotalBytes totalBytes,
               FormEntry.field jMediaTypeKey mtStr]
                ++ mediaCategoryEntries p.mediaCategory
                ++ [FormEntry.file jMediaKey att.payload fn]
                ++ ownersEntries p.additionalOwners }

/-- Refinement variant of `buildRequest` for checking reachability of
the non-numeric `totalBytes` branch: identical construction with that
branch removed. -/
def buildRequestNoNaNCheck {J : Type} (sign : SignRequest → JStr) (p : Params) (it : Item) :
    Except (NodeError J) Request :=
  match resolveBinary it.binary p.binaryPropertyName with
  | .error e => .error e
  | .ok kv =>
    let att := kv.2
    let mt := att.mimeType
    let fn := resolveFileName att.fileName
    if !mimeOk mt then .error (.operation (invalidTypeMsg mt))
    else
      let mtStr := jsShowOptStr mt
      let oauthParams := oauthParamsOf att.payload.length mtStr p.mediaCategory
      let authHeader := sign { url := jUploadUrl, method := jPOST, params := oauthParams }
      let totalBytes := jsNatToStr att.payload.length
      if !mimeOk mt then .error (.operation (invalidTypeMsg mt))
      else
        .ok
          { url := jUploadUrl
            method := jPOST
            authHeader := authHeader
            entries :=
              [FormEntry.field jCommand jINIT,
               FormEntry.field jTotalBytes totalBytes,
               FormEntry.field jMediaTypeKey mtStr]
                ++ mediaCategoryEntries p.mediaCategory
                ++ [FormEntry.file jMediaKey att.payload fn]
                ++ ownersEntries p.additionalOwners }

/-! Response handling (source lines 292–333). -/

/-- Parse-or-raw body resolution (source lines 292–298): `JSON.parse`
is the abstract parameter `parse`; on parse failure the raw text is
kept and no error is raised. -/
def parseBody {J : Type} (parse : JStr → Option J) (data : JStr) : BodyVal J :=
  match parse data with
  | some j => .parsed j
  | none => .raw data

/-- Status classification (source lines 322–333): status ≥ 400 throws a
`NodeApiError` carrying the parsed-or-raw body and the status code,
anything below 400 is a success carrying the body. -/
def classifyResponse {J : Type} (parse : JStr → Option J) (status : Nat) (data : JStr) :
    Except (NodeError J) (BodyVal J) :=
  let body := parseBody parse data
  if 400 ≤ status then .error (.api body status) else .ok body

/-! Per-item processing and the batch driver (source lines 116–368). -/

/-- One item's processing: build the request (everything before the
network call), perform the single round trip through the abstract
network `net`, and classify the completed response.  A rejected promise
becomes a transport error at the item boundary. -/
def processItem {J : Type} (sign : SignRequest → JStr) (parse : JStr → Option J)
    (net : Request → NetOutcome) (p : Params) (it : Item) :
    Except (NodeError J) (BodyVal J) :=
  match buildRequest sign p it with
  | .error e => .error e
  | .ok req =>
    match net req with
    | .fail m => .error (.transport m)
    | .response status data => classifyResponse parse status data

/-- Fold of one item outcome into the batch output entry the source
pushes. -/
def recordOf {J : Type} : Except (NodeError J) (BodyVal J) → ItemResult J
  | .ok b => .success b
  | .error e => .failure e

/-- First error an item-processing function produces on a list, in input
order. -/
def firstItemError {α E β : Type} (f : α → Except E β) : List α → Option E
  | [] => none
  | x :: xs =>
    match f x with
    | .error e => some e
    | .ok _ => firstItemError f xs

/-- The batch loop (source lines 116–365): items in input order; a
failing item is recorded and processing continues when `cof`
(`this.continueOnFail()`) holds, otherwise the first failure aborts the
whole batch. -/
def executeBatch {J : Type} (sign : SignRequest → JStr) (parse : JStr → Option J)
    (net : Request → NetOutcome) (cof : Bool) :
    List (Params × Item) → Except (NodeError J) (List (ItemResult J))
  | [] => .ok []
  | pi :: rest =>
    match processItem sign parse net pi.1 pi.2 with
    | .ok b => (executeBatch sign parse net cof rest).map (fun l => .success b :: l)
    | .error e =>
      if cof then (executeBatch sign parse net cof rest).map (fun l => .failure e :: l)
      else .error e

/-- The whole `execute` method: credential retrieval and validation
(source lines 81–102) before any item is touched, then the batch loop. -/
def execute {J : Type} (sign : SignRequest → JStr) (parse : JStr → Option J)
    (net : Request → NetOutcome) (creds : Option Credentials) (cof : Bool)
    (items : List (Params × Item)) : Except (NodeError J) (List (ItemResult J)) :=
  match creds with
  | none => .error (.operation jNoCredsMsg)
  | some c =>
    match firstMissingCredential c with
    | some label => .error (.operation (jMissingCredPre ++ label))
    | none => executeBatch sign parse net cof items

/-! Signature engine.

The `OAuth1Helper` class lives in `TwitterUtils.ts`, which is not part
of the available sources (only its construction and call sites are);
the definitions below are modelled from the specification of `sign`. -/

/-- The sixteen uppercase hexadecimal digit characters. -/
def hexTable : JStr :=
  ['0', '1', '2', '3', '4', '5', '6', '7', '8', '9', 'A', 'B', 'C', 'D', 'E', 'F']

/-- RFC 3986 unreserved characters: letters, digits, `-`, `.`, `_`, `~`. -/
def isUnreservedCh (c : Char) : Bool :=
  (65 ≤ c.toNat && c.toNat ≤ 90) || (97 ≤ c.toNat && c.toNat ≤ 122) ||
    (48 ≤ c.toNat && c.toNat ≤ 57) || c = '-' || c = '.' || c = '_' || c = '~'

/-- Modelled from the spec: percent-encoding of one character per
RFC 3986 (unreserved characters kept, everything else `%XX`); modelled
for single-byte code points, multi-byte UTF-8 expansion not modelled. -/
def pctEncodeChar (c : Char) : JStr :=
  if isUnreservedCh c then [c]
  else ['%', hexTable.getD (c.toNat / 16 % 16) '0', hexTable.getD (c.toNat % 16) '0']

/-- Percent-encoding of a whole string. -/
def pctEncode (l : JStr) : JStr := (l.map pctEncodeChar).flatten

/-- Byte-order comparison of character lists (strict). -/
def jstrLt : JStr → JStr → Bool
  | [], [] => false
  | [], _ :: _ => true
  | _ :: _, [] => false
  | a :: as, b :: bs =>
    if a.toNat < b.toNat then true
    else if b.toNat < a.toNat then false
    else jstrLt as bs

/-- Ordering of encoded parameter pairs: by key, then by value. -/
def pairLe (a b : JStr × JStr) : Bool :=
  if a.1 = b.1 then !jstrLt b.2 a.2 else jstrLt a.1 b.1

/-- Ordered insertion for the parameter sort. -/
def insertPair (x : JStr × JStr) : List (JStr × JStr) → List (JStr × JStr)
  | [] => [x]
  | y :: ys => if pairLe x y then x :: y :: ys else y :: insertPair x ys

/-- Insertion sort of parameter pairs (ascending byte order by encoded
key, then encoded value, as the spec's canonicalization demands). -/
def sortPairs : List (JStr × JStr) → List (JStr × JStr)
  | [] => []
  | x :: xs => insertPair x (sortPairs xs)

/-- Join of a list of strings with a separator. -/
def joinWith (sep : JStr) : List JStr → JStr
  | [] => []
  | [x] => x
  | x :: y :: xs => x ++ sep ++ joinWith sep (y :: xs)

/-- ASCII uppercasing of the HTTP method. -/
def jsToUpperAscii (l : JStr) : JStr :=
  l.map (fun c => if 97 ≤ c.toNat && c.toNat ≤ 122 then Char.ofNat (c.toNat - 32) else c)

/-- Literal parameter name `oauth_consumer_key`. -/
def sOauthConsumerKey : String := "oauth_consumer_key"

/-- Literal parameter name `oauth_nonce`. -/
def sOauthNonce : String := "oauth_nonce"

/-- Literal parameter name `oauth_signature_method`. -/
def sOauthSigMethod : String := "oauth_signature_method"

/-- Literal signature method value `HMAC-SHA1`. -/
def sHmacSha1 : String := "HMAC-SHA1"

/-- Literal parameter name `oauth_timestamp`. -/
def sOauthTimestamp : String := "oauth_timestamp"

/-- Literal parameter name `oauth_token`. -/
def sOauthToken : String := "oauth_token"

/-- Literal parameter name `oauth_version`. -/
def sOauthVersion : String := "oauth_version"

/-- Literal version value `1.0`. -/
def sOneDotZero : String := "1.0"

/-- Literal parameter name `oauth_signature`. -/
def sOauthSignature : String := "oauth_signature"

/-- Literal header stem `OAuth `. -/
def sOAuthSp : String := "OAuth "

/-- Literal separator `, ` of the header fields. -/
def sCommaSp : String := ", "

/-- Credential record of the signature engine (all four secrets as
plain strings). -/
structure SignCreds where
  consumerKey : JStr
  consumerSecret : JStr
  accessToken : JStr
  accessSecret : JStr
deriving DecidableEq

/-- Modelled from the spec: the full OAuth parameter set — the six
`oauth_*` protocol parameters merged with the request parameters. -/
def oauthParamSet (c : SignCreds) (nonce ts : JStr) (reqParams : List (JStr × JStr)) :
    List (JStr × JStr) :=
  [(sOauthConsumerKey.data, c.consumerKey),
   (sOauthNonce.data, nonce),
   (sOauthSigMethod.data, sHmacSha1.data),
   (sOauthTimestamp.data, ts),
   (sOauthToken.data, c.accessToken),
   (sOauthVersion.data, sOneDotZero.data)] ++ reqParams

/-- Modelled from the spec: the canonical parameter string — every key
and value percent-encoded, pairs sorted by encoded key then encoded
value, joined as `key=value` with `&`. -/
def canonicalParamString (ps : List (JStr × JStr)) : JStr :=
  joinWith ['&']
    ((sortPairs (ps.map (fun kv => (pctEncode kv.1, pctEncode kv.2)))).map
      (fun kv => kv.1 ++ '=' :: kv.2))

/-- Modelled from the spec: the signature base string. -/
def signatureBaseString (method url : JStr) (ps : List (JStr × JStr)) : JStr :=
  jsToUpperAscii method ++ '&' :: pctEncode url ++ '&' :: pctEncode (canonicalParamString ps)

/-- Modelled from the spec: the signing key — percent-encoded consumer
secret, `&`, percent-encoded token secret. -/
def signingKey (c : SignCreds) : JStr :=
  pctEncode c.consumerSecret ++ '&' :: pctEncode c.accessSecret

/-- The double-quote character. -/
def quoteCh : Char := Char.ofNat 34

/-- One `key="percent-encoded-value"` header field. -/
def headerField (kv : JStr × JStr) : JStr :=
  kv.1 ++ '=' :: quoteCh :: pctEncode kv.2 ++ [quoteCh]

/-- Modelled from the spec: `sign` — the authorization header built from
fixed credentials, nonce, timestamp, method, URL and request
parameters.  `mac` abstracts base64 ∘ HMAC-SHA1 (a fixed deterministic
function of the signing key and the base string). -/
def generateAuthHeader (mac : JStr → JStr → JStr) (c : SignCreds)
    (nonce ts method url : JStr) (reqParams : List (JStr × JStr)) : JStr :=
  let ps := oauthParamSet c nonce ts reqParams
  let base := signatureBaseString method url ps
  let sigVal := mac (signingKey c) base
  sOAuthSp.data ++
    joinWith sCommaSp.data
      ([(sOauthConsumerKey.data, c.consumerKey),
        (sOauthNonce.data, nonce),
        (sOauthSignature.data, sigVal),
        (sOauthSigMethod.data, sHmacSha1.data),
        (sOauthTimestamp.data, ts),
        (sOauthToken.data, c.accessToken),
        (sOauthVersion.data, sOneDotZero.data)].map headerField)

/-! Observation helpers on built requests. -/

/-- Value a form entry contributes when looking up the string field
named `n`. -/
def entryValueFor (n : JStr) (e : FormEntry) : Option JStr :=
  match e with
  | .field k v => if k = n then some v else none
  | .file _ _ _ => none

/-- First value of the string form field named `n` in a request. -/
def fieldValueOf (n : JStr) (r : Request) : Option JStr :=
  r.entries.findSome? (entryValueFor n)

/-- Payload of the first binary (`media`) entry of a request. -/
def mediaPayloadOf (r : Request) : Option (List Nat) :=
  r.entries.findSome? (fun e =>
    match e with
    | .field _ _ => none
    | .file _ payload _ => some payload)

/-! Concrete fixtures used by closed theorems. -/

/-- Literal mime type `image/png`. -/
def sImagePng : String := "image/png"

/-- Literal `image/png` as a character list. -/
def jImagePng : JStr := sImagePng.data

/-- Literal mime type `text/plain`. -/
def sTextPlain : String := "text/plain"

/-- Literal `text/plain` as a character list. -/
def jTextPlain : JStr := sTextPlain.data

/-- Literal property name `data` (the node's default). -/
def sDataProp : String := "data"

/-- Literal `data` as a character list. -/
def jData : JStr := sDataProp.data

/-- Literal property name `photo`. -/
def sPhotoProp : String := "photo"

/-- Literal `photo` as a character list. -/
def jPhoto : JStr := sPhotoProp.data

/-- Literal caller-supplied media data used by fixtures. -/
def sLiteralMedia : String := "caller-supplied-data"

/-- Caller-supplied media data as a character list. -/
def jLiteralMedia : JStr := sLiteralMedia.data

/-- Literal response body used by fixtures. -/
def sBodyEx : String := "media uploaded"

/-- Fixture response body as a character list. -/
def jBodyEx : JStr := sBodyEx.data

/-- Fixture image attachment with payload bytes `[9, 8, 7]`. -/
def pngAtt : Attachment :=
  { mimeType := some jImagePng, fileName := none, payload := [9, 8, 7] }

/-- Fixture non-image attachment. -/
def textAtt : Attachment :=
  { mimeType := some jTextPlain, fileName := none, payload := [9, 8, 7] }

/-- Fixture item holding the image attachment under the default name. -/
def itemNamed : Item := { binary := [(jData, pngAtt)] }

/-- Fixture item whose only attachment is the image under `photo`. -/
def itemFallback : Item := { binary := [(jPhoto, pngAtt)] }

/-- Fixture item holding a text attachment under the default name. -/
def itemText : Item := { binary := [(jData, textAtt)] }

/-- Fixture parameters: default binary property and a chosen
`additionalOwners` value. -/
def paramsWithOwners (raw : Option JStr) : Params :=
  { binaryPropertyName := jData, mediaData := none, mediaCategory := none,
    additionalOwners := raw }

/-- Fixture parameters with caller-supplied literal media data. -/
def paramsMediaData : Params :=
  { binaryPropertyName := jData, mediaData := some jLiteralMedia, mediaCategory := none,
    additionalOwners := none }

/-- Fixture credentials whose consumer key is the empty string. -/
def badCreds : Credentials :=
  { consumerKey := some [], consumerSecret := some jData, accessToken := some jData,
    accessSecret := some jData }

/-- Fixture signature helper (the claims under test never inspect the
header's content). -/
def signEx : SignRequest → JStr := fun _ => []

/-- Fixture JSON parser that always fails (unparsable body). -/
def parseNoneU : JStr → Option Unit := fun _ => none

/-- Fixture JSON parser that always succeeds. -/
def parseSomeU : JStr → Option Unit := fun _ => some ()

/-- Fixture network answering 201 with the fixture body. -/
def net201 : Request → NetOutcome := fun _ => .response 201 jBodyEx

/-- Fixture network answering 403 with the fixture body. -/
def net403 : Request → NetOutcome := fun _ => .response 403 jBodyEx

/-- Fixture network whose promise rejects. -/
def netFailEx : Request → NetOutcome := fun _ => .fail []

/-- Fixture abstract HMAC for the signature engine. -/
def macEx : JStr → JStr → JStr := fun k b => k ++ b

/-- Fixture signature-engine credentials. -/
def credsEx : SignCreds :=
  { consumerKey := jData, consumerSecret := jData, accessToken := jData,
    accessSecret := jData }

/-- Comma-join of 101 distinct decimal IDs. -/
def owners101 : JStr := joinComma ((List.range 101).map jsNatToStr)

/-- Comma-join of 100 distinct decimal IDs. -/
def owners100 : JStr := joinComma ((List.range 100).map jsNatToStr)

/-- The one-character string `,`, whose cleaned owner list is empty. -/
def commaOnly : JStr := [',']

end TwitterUpload

deriving instance DecidableEq for Except

namespace TwitterUpload

/-! Helper lemmas. -/

/-- The characters of `digitChar` are decimal digits and in particular
not whitespace and not a sign character. -/
lemma digitChar_props (d : Nat) :
    isDigitCh (digitChar d) = true ∧ isWsChar (digitChar d) = false ∧
      digitChar d ≠ '+' ∧ digitChar d ≠ '-' := by
  have h : ∀ m : Nat, m < 10 →
      isDigitCh (digitTable.getD m '0') = true ∧ isWsChar (digitTable.getD m '0') = false ∧
        digitTable.getD m '0' ≠ '+' ∧ digitTable.getD m '0' ≠ '-' := by decide
  exact h (d % 10) (Nat.mod_lt _ (by norm_num))

/-- Every character the digit expansion emits is a decimal digit. -/
lemma decDigitsAux_props :
    ∀ fuel n : Nat, ∀ c ∈ decDigitsAux fuel n,
      isDigitCh c = true ∧ isWsChar c = false ∧ c ≠ '+' ∧ c ≠ '-' := by
  intro fuel
  induction fuel with
  | zero => intro n c hc; simp [decDigitsAux] at hc
  | succ f ih =>
    intro n c hc
    match n with
    | 0 => simp [decDigitsAux] at hc
    | m + 1 =>
      simp only [decDigitsAux, List.mem_append, List.mem_singleton] at hc
      rcases hc with hc | hc
      · exact ih _ c hc
      · subst hc; exact digitChar_props _

/-- Every character of `String(n)` is a decimal digit. -/
lemma jsNatToStr_props (n : Nat) :
    ∀ c ∈ jsNatToStr n, isDigitCh c = true ∧ isWsChar c = false ∧ c ≠ '+' ∧ c ≠ '-' := by
  intro c hc
  match n with
  | 0 =>
    simp only [jsNatToStr, List.mem_singleton] at hc
    subst hc; exact digitChar_props _
  | m + 1 => exact decDigitsAux_props _ _ c hc

/-- The decimal rendering of a number is never the empty string. -/
lemma jsNatToStr_ne_nil (n : Nat) : jsNatToStr n ≠ [] := by
  match n with
  | 0 => simp [jsNatToStr]
  | m + 1 =>
    simp only [jsNatToStr, decDigitsAux]
    intro h
    exact absurd (List.append_eq_nil.mp h).2 (by simp)

/-- Trimming a string without whitespace characters is the identity. -/
lemma all_not_ws_trim (l : JStr) (h : ∀ c ∈ l, isWsChar c = false) : jsTrim l = l := by
  unfold jsTrim
  have h1 : l.dropWhile isWsChar = l := by
    cases l with
    | nil => simp
    | cons c rest =>
      rw [List.dropWhile_cons_of_neg]
      simp [h c (by simp)]
  rw [h1]
  have h2 : l.reverse.dropWhile isWsChar = l.reverse := by
    cases hr : l.reverse with
    | nil => simp
    | cons c rest =>
      rw [List.dropWhile_cons_of_neg]
      have : c ∈ l := by
        rw [← List.mem_reverse, hr]; simp
      simp [h c this]
  rw [h2, List.reverse_reverse]

/-- A non-empty all-digit string is a JavaScript decimal literal. -/
lemma all_digits_parses (l : JStr) (hne : l ≠ [])
    (h : ∀ c ∈ l, isDigitCh c = true ∧ isWsChar c = false ∧ c ≠ '+' ∧ c ≠ '-') :
    jsParsesAsDecimal l = true := by
  cases l with
  | nil => exact absurd rfl hne
  | cons c rest =>
    obtain ⟨hd, _, hp, hm⟩ := h c (by simp)
    unfold jsParsesAsDecimal
    have hsign : (c = '+' || c = '-') = false := by
      simp [hp, hm]
    simp only [hsign, Bool.false_eq_true, if_false]
    have htake : (c :: rest).takeWhile isDigitCh = c :: rest :=
      List.takeWhile_eq_self_iff.mpr (fun x hx => (h x hx).1)
    have hdrop : (c :: rest).dropWhile isDigitCh = [] :=
      List.dropWhile_eq_nil_iff.mpr (fun x hx => (h x hx).1)
    rw [htake, hdrop]
    simp [jsExpOk]

/-- `Number(String(n))` is never `NaN`. -/
lemma jsNatToStr_not_nan (n : Nat) : jsIsNaNOfNumber (jsNatToStr n) = false := by
  have htrim : jsTrim (jsNatToStr n) = jsNatToStr n :=
    all_not_ws_trim _ (fun c hc => (jsNatToStr_props n c hc).2.1)
  unfold jsIsNaNOfNumber
  rw [htrim]
  cases hl : jsNatToStr n with
  | nil => exact absurd hl (jsNatToStr_ne_nil n)
  | cons c rest =>
    have := all_digits_parses (jsNatToStr n) (jsNatToStr_ne_nil n) (jsNatToStr_props n)
    rw [hl] at this
    simp [this]

/-- Closed form of the additional-owners field after the try/catch:
present iff the raw parameter is a truthy string whose cleaned list has
at most 100 entries; its value is the comma-join of the cleaned list. -/
lemma ownersField_eq (raw : Option JStr) :
    ownersField raw =
      (match raw with
       | none => none
       | some s =>
         if jsTruthy s then
           if 100 < (ownersList s).length then none else some (joinComma (ownersList s))
         else none) := by
  cases raw with
  | none => rfl
  | some s =>
    unfold ownersField ownersBlockInner
    by_cases ht : jsTruthy s
    · simp only [ht, if_true]
      by_cases hl : 100 < (ownersList s).length
      · simp [hl]
      · simp [hl]
    · simp [ht]

/-- The optional `media_category` entry never carries the
`additional_owners` name. -/
lemma findSome?_mediaCategoryEntries (mc : Option JStr) :
    (mediaCategoryEntries mc).findSome? (entryValueFor jAdditionalOwnersKey) = none := by
  cases mc with
  | none => rfl
  | some c =>
    unfold mediaCategoryEntries
    by_cases ht : jsTruthy c
    · simp only [ht, if_true]
      simp [List.findSome?, entryValueFor,
        show jMediaCategoryKey ≠ jAdditionalOwnersKey from by decide]
    · simp [ht]

/-- Looking the `additional_owners` name up in the owners entries gives
exactly the owners field value. -/
lemma findSome?_ownersEntries (raw : Option JStr) :
    (ownersEntries raw).findSome? (entryValueFor jAdditionalOwnersKey) = ownersField raw := by
  unfold ownersEntries
  cases h : ownersField raw with
  | none => simp
  | some v => simp [List.findSome?, entryValueFor]

/-! Claim theorems. -/

set_option maxRecDepth 8000

/-- C1: with continue-on-failure enabled, every item's outcome — success
or failure — is recorded at that item's index, so the batch output is
the index-for-index image of the input list; with the policy disabled,
the first per-item error aborts the whole batch and propagates. -/
theorem batch_isolation_and_order {J : Type} (sign : SignRequest → JStr)
    (parse : JStr → Option J) (net : Request → NetOutcome) (items : List (Params × Item)) :
    executeBatch sign parse net true items =
        .ok (items.map (fun pi => recordOf (processItem sign parse net pi.1 pi.2))) ∧
      executeBatch sign parse net false items =
        (match firstItemError (fun pi => processItem sign parse net pi.1 pi.2) items with
         | some e => .error e
         | none =>
           .ok (items.map (fun pi => recordOf (processItem sign parse net pi.1 pi.2)))) := by
  induction items with
  | nil => exact ⟨rfl, rfl⟩
  | cons pi rest ih =>
    constructor
    · cases hr : processItem sign parse net pi.1 pi.2 with
      | ok b => simp [executeBatch, hr, ih.1, recordOf, Except.map]
      | error e => simp [executeBatch, hr, ih.1, recordOf, Except.map]
    · cases hr : processItem sign parse net pi.1 pi.2 with
      | ok b =>
        simp only [executeBatch, hr, firstItemError, List.map_cons, recordOf, ih.2, Except.map]
        cases hfe : firstItemError (fun pi => processItem sign parse net pi.1 pi.2) rest with
        | none => simp
        | some e => simp
      | error e => simp [executeBatch, hr, firstItemError, recordOf]

/-- C2: with 101 cleaned owner IDs the 100-owner `NodeOperationError` is
raised inside the additional-owners try block, but the surrounding
catch swallows it: the request is built without the `additional_owners`
field and the item completes successfully, instead of failing as the
claim states; with exactly 100 IDs the field is the comma-join of those
IDs. -/
theorem owners_cap_error_swallowed :
    (ownersList owners101).length = 101 ∧
      ownersBlockInner (some owners101) = .error jMaxOwnersMsg ∧
      ownersField (some owners101) = none ∧
      (buildRequest (J := Unit) signEx (paramsWithOwners (some owners101)) itemNamed).map
          (fieldValueOf jAdditionalOwnersKey) = .ok none ∧
      processItem signEx parseNoneU net201 (paramsWithOwners (some owners101)) itemNamed =
          .ok (.raw jBodyEx) ∧
      (buildRequest (J := Unit) signEx (paramsWithOwners (some owners100)) itemNamed).map
          (fieldValueOf jAdditionalOwnersKey) = .ok (some owners100) :=
  ⟨by decide, by decide, by decide, by decide, by decide, by decide⟩

/-- C3 counterexample: for the raw parameter `","` the cleaned owner
list is empty, yet the `additional_owners` field is appended (with the
empty value), because the source tests truthiness of the raw string and
not emptiness of the cleaned list — refuting the claimed "if and only
if the cleaned list is non-empty". -/
theorem additional_owners_field_on_empty_list :
    ownersList commaOnly = [] ∧
      (buildRequest (J := Unit) signEx (paramsWithOwners (some commaOnly)) itemNamed).map
          (fieldValueOf jAdditionalOwnersKey) = .ok (some []) :=
  ⟨by decide, by decide⟩

/-- C3 (amended): for every item that reaches form building, the
`additional_owners` field is included iff the raw parameter is a
present, non-empty string whose cleaned owner list has at most 100
entries; when included, its value is the comma-join of the cleaned
(trimmed, filtered) list — which is empty when the raw string holds
only commas and whitespace. -/
theorem additional_owners_inclusion {J : Type} (sign : SignRequest → JStr) (p : Params)
    (it : Item) (kv : JStr × Attachment)
    (hres : resolveBinary (J := J) it.binary p.binaryPropertyName = .ok kv)
    (hmime : mimeOk kv.2.mimeType = true) :
    ∃ req, buildRequest (J := J) sign p it = .ok req ∧
      fieldValueOf jAdditionalOwnersKey req =
        (match p.additionalOwners with
         | none => none
         | some s =>
           if jsTruthy s then
             if 100 < (ownersList s).length then none else some (joinComma (ownersList s))
           else none) := by
  unfold buildRequest
  rw [hres]
  simp only [hmime, Bool.not_true, Bool.false_eq_true, if_false, jsNatToStr_not_nan]
  refine ⟨_, rfl, ?_⟩
  rw [← ownersField_eq]
  unfold fieldValueOf
  simp only [List.findSome?_append, List.findSome?_cons, findSome?_mediaCategoryEntries,
    findSome?_ownersEntries,
    show entryValueFor jAdditionalOwnersKey (.field jCommand jINIT) = none from by decide,
    show ∀ tb, entryValueFor jAdditionalOwnersKey (.field jTotalBytes tb) = none from
      fun tb => by simp [entryValueFor, show jTotalBytes ≠ jAdditionalOwnersKey from by decide],
    show ∀ mt, entryValueFor jAdditionalOwnersKey (.field jMediaTypeKey mt) = none from
      fun mt => by simp [entryValueFor, show jMediaTypeKey ≠ jAdditionalOwnersKey from by decide],
    show ∀ a b c, entryValueFor jAdditionalOwnersKey (.file a b c) = none from
      fun a b c => rfl]
  simp

/-- Witness for C3 (amended) at the 100-owner fixture. -/
theorem additional_owners_inclusion_witness :
    ∃ req,
      buildRequest (J := Unit) signEx (paramsWithOwners (some owners100)) itemNamed = .ok req ∧
        fieldValueOf jAdditionalOwnersKey req = some owners100 := by
  obtain ⟨req, h1, h2⟩ :=
    additional_owners_inclusion (J := Unit) signEx (paramsWithOwners (some owners100))
      itemNamed (jData, pngAtt) (by decide) (by decide)
  exact ⟨req, h1, h2.trans (by decide)⟩

/-- C4: the `mediaData` parameter is read by the source but never used:
the built request is invariant under any change of `mediaData`, and at
a concrete item with literal media data supplied the uploaded payload
is still the binary attachment's bytes `[9, 8, 7]`, not the supplied
data — the named attachment is consulted unconditionally. -/
theorem mediaData_parameter_ignored :
    (∀ (J : Type) (sign : SignRequest → JStr) (p : Params) (it : Item)
        (md1 md2 : Option JStr),
      buildRequest (J := J) sign { p with mediaData := md1 } it =
        buildRequest sign { p with mediaData := md2 } it) ∧
      (buildRequest (J := Unit) signEx paramsMediaData itemNamed).map mediaPayloadOf =
        .ok (some [9, 8, 7]) :=
  ⟨fun _ _ _ _ _ _ => rfl, by decide⟩

/-- C5: when the attachment mapping has no entry under the configured
name, resolution yields the first attachment whose declared mime type
starts with `image/`, and fails with the missing-media error when no
such attachment exists. -/
theorem fallback_binary_resolution {J : Type} (binary : List (JStr × Attachment))
    (name : JStr) (h : lookupBinary binary name = none) :
    resolveBinary (J := J) binary name =
      (match findImageAttachment binary with
       | some kv => .ok kv
       | none => .error (.operation (noBinaryMsg name))) := by
  unfold resolveBinary
  rw [h]

/-- Witness for C5: an item without `data` but with an `image/png`
attachment named `photo` resolves to `photo` without error. -/
theorem fallback_binary_resolution_witness :
    resolveBinary (J := Unit) [(jPhoto, pngAtt)] jData = .ok (jPhoto, pngAtt) :=
  (fallback_binary_resolution (J := Unit) [(jPhoto, pngAtt)] jData (by decide)).trans
    (by decide)

/-- C6: a missing or empty credential field makes the whole execution
fail with the configuration error before any item is processed: the
result is the same for every continue-on-failure policy, every item
list, and every network. -/
theorem credential_validation_aborts_batch {J : Type} (sign : SignRequest → JStr)
    (parse : JStr → Option J) (net net2 : Request → NetOutcome) (c : Credentials)
    (label : JStr) (cof cof2 : Bool) (items items2 : List (Params × Item))
    (h : firstMissingCredential c = some label) :
    execute sign parse net (some c) cof items =
        .error (.operation (jMissingCredPre ++ label)) ∧
      execute sign parse net (some c) cof items =
        execute sign parse net2 (some c) cof2 items2 := by
  refine ⟨?_, ?_⟩ <;> simp only [execute, h]

/-- Witness for C6 at credentials with an empty consumer key. -/
theorem credential_validation_aborts_batch_witness :
    execute (J := Unit) signEx parseNoneU net201 (some badCreds) true
        [(paramsWithOwners none, itemNamed)] =
      .error (.operation (jMissingCredPre ++ jLabelConsumerKey)) :=
  (credential_validation_aborts_batch signEx parseNoneU net201 net403 badCreds
      jLabelConsumerKey true false [(paramsWithOwners none, itemNamed)] [] (by decide)).1

/-- C7: the completed response body is JSON-parsed with fallback to the
raw text (no separate error), a status at least 400 yields the API
failure carrying that status and the parsed-or-raw body, and a status
below 400 yields a success carrying the body. -/
theorem response_classification {J : Type} (parse : JStr → Option J) (status : Nat)
    (raw : JStr) :
    (parse raw = none → parseBody parse raw = .raw raw) ∧
      (∀ j, parse raw = some j → parseBody parse raw = .parsed j) ∧
      (400 ≤ status →
        classifyResponse parse status raw = .error (.api (parseBody parse raw) status)) ∧
      (status < 400 → classifyResponse parse status raw = .ok (parseBody parse raw)) := by
  refine ⟨?_, ?_, ?_, ?_⟩
  · intro h; unfold parseBody; rw [h]
  · intro j h; unfold parseBody; rw [h]
  · intro h; unfold classifyResponse; simp [h]
  · intro h; unfold classifyResponse; simp [Nat.not_le.mpr h]

/-- Witness for C7: an unparsable 403 body becomes a failure keeping
the raw text and status, a parsed 201 body becomes a success. -/
theorem response_classification_witness :
    parseBody parseNoneU jBodyEx = .raw jBodyEx ∧
      parseBody parseSomeU jBodyEx = .parsed () ∧
      classifyResponse parseNoneU 403 jBodyEx = .error (.api (.raw jBodyEx) 403) ∧
      classifyResponse parseSomeU 201 jBodyEx = .ok (.parsed ()) := by
  refine ⟨?_, ?_, ?_, ?_⟩
  · exact (response_classification parseNoneU 403 jBodyEx).1 rfl
  · exact (response_classification parseSomeU 201 jBodyEx).2.1 () rfl
  · exact ((response_classification parseNoneU 403 jBodyEx).2.2.1 (by norm_num)).trans
      (by decide)
  · exact ((response_classification parseSomeU 201 jBodyEx).2.2.2 (by norm_num)).trans
      (by decide)

/-- C8: an item whose resolved mime type fails the `image/` guard fails
with the item-scoped invalid-media-type error, and its processing never
reaches the network: the outcome is identical for any two networks.
(The embedding keeps both mime checks of the source — before the OAuth
parameter record is built and after the header is generated.) -/
theorem mime_validation_blocks_before_network {J : Type} (sign : SignRequest → JStr)
    (parse : JStr → Option J) (net net2 : Request → NetOutcome) (p : Params) (it : Item)
    (kv : JStr × Attachment)
    (hres : resolveBinary (J := J) it.binary p.binaryPropertyName = .ok kv)
    (hmime : mimeOk kv.2.mimeType = false) :
    processItem sign parse net p it = .error (.operation (invalidTypeMsg kv.2.mimeType)) ∧
      processItem sign parse net p it = processItem sign parse net2 p it := by
  unfold processItem buildRequest
  rw [hres]
  simp [hmime]

/-- Witness for C8 at a `text/plain` attachment and two networks that
would answer differently. -/
theorem mime_validation_blocks_before_network_witness :
    processItem signEx parseNoneU net201 (paramsWithOwners none) itemText =
        .error (.operation (invalidTypeMsg (some jTextPlain))) ∧
      processItem signEx parseNoneU net201 (paramsWithOwners none) itemText =
        processItem signEx parseNoneU netFailEx (paramsWithOwners none) itemText := by
  have h := mime_validation_blocks_before_network signEx parseNoneU net201 netFailEx
    (paramsWithOwners none) itemText (jData, textAtt) (by decide) (by decide)
  exact ⟨h.1, h.2⟩

/-- C9: the modelled `sign` operation is a pure function of the
credentials, nonce, timestamp, method, URL and request parameters: two
invocations on identical inputs produce the identical authorization
header string. -/
theorem sign_deterministic (mac : JStr → JStr → JStr) (c c2 : SignCreds)
    (nonce nonce2 ts ts2 method method2 url url2 : JStr) (ps ps2 : List (JStr × JStr))
    (hc : c = c2) (hn : nonce = nonce2) (hts : ts = ts2) (hm : method = method2)
    (hu : url = url2) (hp : ps = ps2) :
    generateAuthHeader mac c nonce ts method url ps =
      generateAuthHeader mac c2 nonce2 ts2 method2 url2 ps2 := by
  subst hc; subst hn; subst hts; subst hm; subst hu; subst hp; rfl

/-- Witness for C9 at concrete inputs. -/
theorem sign_deterministic_witness :
    generateAuthHeader macEx credsEx jData jData jPOST jUploadUrl [] =
      generateAuthHeader macEx credsEx jData jData jPOST jUploadUrl [] :=
  sign_deterministic macEx credsEx credsEx jData jData jData jData jPOST jPOST
    jUploadUrl jUploadUrl [] [] rfl rfl rfl rfl rfl rfl

/-- C10: `totalBytes` is always the decimal rendering of the payload's
byte length, which `isNaN(Number(...))` never rejects, so the
non-numeric branch is unreachable: the builder equals the variant with
that branch removed, on every input. -/
theorem totalBytes_check_unreachable {J : Type} :
    (∀ n, jsIsNaNOfNumber (jsNatToStr n) = false) ∧
      ∀ (sign : SignRequest → JStr) (p : Params) (it : Item),
        buildRequest (J := J) sign p it = buildRequestNoNaNCheck sign p it := by
  refine ⟨jsNatToStr_not_nan, ?_⟩
  intro sign p it
  unfold buildRequest buildRequestNoNaNCheck
  cases hres : resolveBinary (J := J) it.binary p.binaryPropertyName with
  | error e => rfl
  | ok kv => simp [jsNatToStr_not_nan]

end TwitterUpload
